import Mathlib

/-!
Shallow embedding of the text-to-video pipeline (`src/main.py`) and its
Flask job service (`src/server.py`).

External collaborators (the Gemini content-generation service, the manim
render engine, ffmpeg and `cp`) are modelled as oracles: the generation
service's responses are input strings, and each external process invocation
is a boolean outcome supplied by the environment.  Pure logic of the
repository - JSON extraction, the bounded render/repair loop, the assembly
branch, the job store and the job state machine - is translated directly
from the source.

Machine details deliberately out of scope of the claims: floating-point
JSON numbers (the model parser accepts the integer fragment only),
wall-clock timestamp values (modelled as opaque naturals), and raw byte
streams (modelled as strings).
-/

namespace TTV

/-- JSON values as produced by the stdlib JSON parser used by
`main.py` (`json.loads`).  Numbers are restricted to the integer
fragment; no claim depends on float values. -/
inductive Json where
  | null
  | bool (b : Bool)
  | num (n : Int)
  | str (s : String)
  | arr (items : List Json)
  | obj (fields : List (String × Json))

/-- Double-quote character. -/
def qc : Char := Char.ofNat 34
/-- Backslash character. -/
def bsl : Char := Char.ofNat 92
/-- Opening curly bracket character. -/
def lbrace : Char := Char.ofNat 123
/-- Closing curly bracket character. -/
def rbrace : Char := Char.ofNat 125
/-- Backquote character (the fence delimiter of `parse_json_from_text`). -/
def btick : Char := Char.ofNat 96
/-- Single-quote character. -/
def sq : Char := Char.ofNat 39
/-- Newline character. -/
def nl : Char := Char.ofNat 10

/-- JSON whitespace as accepted between tokens by `json.loads`. -/
def jsonWs (c : Char) : Bool :=
  c = ' ' || c = Char.ofNat 9 || c = nl || c = Char.ofNat 13

/-- String-literal body parser: consumes characters after an opening
double quote up to the closing one, decoding escapes. -/
def parseStrAux : List Char → List Char → Option (String × List Char)
  | [], _ => none
  | c :: rest, acc =>
    if c = qc then some (String.mk acc.reverse, rest)
    else if c = bsl then
      match rest with
      | [] => none
      | e :: rest2 =>
        if e = qc then parseStrAux rest2 (qc :: acc)
        else if e = bsl then parseStrAux rest2 (bsl :: acc)
        else if e = '/' then parseStrAux rest2 ('/' :: acc)
        else if e = 'n' then parseStrAux rest2 (nl :: acc)
        else if e = 't' then parseStrAux rest2 (Char.ofNat 9 :: acc)
        else if e = 'r' then parseStrAux rest2 (Char.ofNat 13 :: acc)
        else if e = 'b' then parseStrAux rest2 (Char.ofNat 8 :: acc)
        else if e = 'f' then parseStrAux rest2 (Char.ofNat 12 :: acc)
        else none
    else parseStrAux rest (c :: acc)

/-- Natural number denoted by a list of decimal digits. -/
def natOfDigits (ds : List Char) : Nat :=
  ds.foldl (fun a c => a * 10 + (c.toNat - 48)) 0

/-- Integer-literal parser (the JSON number grammar restricted to
integers; a float suffix makes the model reject, see module header). -/
def parseNum (cs : List Char) : Option (Json × List Char) :=
  let p := match cs with
    | c :: rest => if c = '-' then (true, rest) else (false, cs)
    | [] => (false, cs)
  let neg := p.1
  let cs1 := p.2
  let ds := cs1.takeWhile Char.isDigit
  let rest := cs1.dropWhile Char.isDigit
  if ds.isEmpty then none
  else if ds.length > 1 && ds.head? = some '0' then none
  else
    let v : Int := if neg then -(natOfDigits ds : Int) else (natOfDigits ds : Int)
    match rest with
    | c :: _ =>
      if c = '.' || c = 'e' || c = 'E' then none
      else some (Json.num v, rest)
    | [] => some (Json.num v, rest)

/-- Parsing mode: a full value, the items of an array after the opening
bracket, or the fields of an object after the opening bracket. -/
inductive PMode where
  | value
  | arrItems (first : Bool)
  | objFields (first : Bool)

/-- Fuel-bounded recursive-descent JSON parser (the strict grammar of
`json.loads`: no trailing commas, no leading zeros). -/
def parseAux : Nat → PMode → List Char → Option (Json × List Char)
  | 0, _, _ => none
  | fuel + 1, PMode.value, cs =>
    match cs.dropWhile jsonWs with
    | [] => none
    | c :: rest =>
      if c = lbrace then parseAux fuel (PMode.objFields true) rest
      else if c = '[' then parseAux fuel (PMode.arrItems true) rest
      else if c = qc then
        match parseStrAux rest [] with
        | some p => some (Json.str p.1, p.2)
        | none => none
      else if c = '-' || c.isDigit then parseNum (c :: rest)
      else
        match c :: rest with
        | 't' :: 'r' :: 'u' :: 'e' :: rem => some (Json.bool true, rem)
        | 'f' :: 'a' :: 'l' :: 's' :: 'e' :: rem => some (Json.bool false, rem)
        | 'n' :: 'u' :: 'l' :: 'l' :: rem => some (Json.null, rem)
        | _ => none
  | fuel + 1, PMode.arrItems first, cs =>
    match cs.dropWhile jsonWs with
    | [] => none
    | c :: rest =>
      if c = ']' then (if first then some (Json.arr [], rest) else none)
      else
        match parseAux fuel PMode.value (c :: rest) with
        | none => none
        | some (v, cs2) =>
          match cs2.dropWhile jsonWs with
          | [] => none
          | s :: cs4 =>
            if s = ',' then
              match parseAux fuel (PMode.arrItems false) cs4 with
              | some (Json.arr vs, rem) => some (Json.arr (v :: vs), rem)
              | _ => none
            else if s = ']' then some (Json.arr [v], cs4)
            else none
  | fuel + 1, PMode.objFields first, cs =>
    match cs.dropWhile jsonWs with
    | [] => none
    | c :: rest =>
      if c = rbrace then (if first then some (Json.obj [], rest) else none)
      else if c = qc then
        match parseStrAux rest [] with
        | none => none
        | some (k, cs2) =>
          match cs2.dropWhile jsonWs with
          | [] => none
          | c2 :: cs3 =>
            if c2 = ':' then
              match parseAux fuel PMode.value cs3 with
              | none => none
              | some (v, cs4) =>
                match cs4.dropWhile jsonWs with
                | [] => none
                | c3 :: cs5 =>
                  if c3 = ',' then
                    match parseAux fuel (PMode.objFields false) cs5 with
                    | some (Json.obj fs, rem) => some (Json.obj ((k, v) :: fs), rem)
                    | _ => none
                  else if c3 = rbrace then some (Json.obj [(k, v)], cs5)
                  else none
            else none
      else none

/-- `json.loads`: parse a full value and require only whitespace after it. -/
def jsonLoads (s : String) : Option Json :=
  match parseAux (2 * s.data.length + 2) PMode.value s.data with
  | some (j, rest) => if (rest.dropWhile jsonWs).isEmpty then some j else none
  | none => none

/-! ## Python string primitives used by `parse_json_from_text` -/

/-- Python `\s` / `str.strip` whitespace class. -/
def pySpace (c : Char) : Bool :=
  c = ' ' || c = Char.ofNat 9 || c = nl || c = Char.ofNat 13 ||
    c = Char.ofNat 11 || c = Char.ofNat 12

/-- Strip `pySpace` characters from both ends of a character list. -/
def stripChars (cs : List Char) : List Char :=
  ((cs.dropWhile pySpace).reverse.dropWhile pySpace).reverse

/-- Python `str.strip()`. -/
def pyStrip (s : String) : String := String.mk (stripChars s.data)

/-- Python `str.startswith(c)` for a single character. -/
def startsWithChar (s : String) (c : Char) : Bool :=
  match s.data with
  | [] => false
  | a :: _ => a = c

/-- Python `str.endswith(c)` for a single character. -/
def endsWithChar (s : String) (c : Char) : Bool :=
  match s.data.getLast? with
  | none => false
  | some a => a = c

/-- Python `str.split` on a single character. -/
def splitOnChar (c : Char) : List Char → List (List Char)
  | [] => [[]]
  | a :: rest =>
    let r := splitOnChar c rest
    if a = c then [] :: r
    else
      match r with
      | [] => [[a]]
      | g :: gs => (a :: g) :: gs

/-- Python `json_str.split(chr(10))`: the lines of a string. -/
def splitLines (s : String) : List String :=
  (splitOnChar nl s.data).map String.mk

/-- Python `"\n".join(lines)` (with the newline written as `chr(10)`). -/
def joinLines : List String → String
  | [] => ""
  | [l] => l
  | l :: rest => l ++ String.mk [nl] ++ joinLines rest

/-! ## Fenced-block extraction

`parse_json_from_text` first applies the regular expression
matching a backquote fence, an optional literal `json` tag, and the
(whitespace-stripped) enclosed text up to the next fence. -/

/-- First occurrence of three consecutive backquotes: returns the text
before the fence and the text after it. -/
def findFence3 : List Char → Option (List Char × List Char)
  | a :: b :: c :: rest =>
    if a = btick && b = btick && c = btick then some ([], rest)
    else
      match findFence3 (b :: c :: rest) with
      | some (pre, post) => some (a :: pre, post)
      | none => none
  | _ => none

/-- The captured group of the fence regular expression applied to `text`:
the text between the first fence and the next one, after dropping a
literal `json` tag glued to the opening fence, stripped of surrounding
whitespace.  `none` when no complete fenced block exists. -/
def fenceContent (text : String) : Option String :=
  match findFence3 text.data with
  | none => none
  | some (_, after) =>
    let body := if ['j', 's', 'o', 'n'].isPrefixOf after then after.drop 4 else after
    match findFence3 body with
    | none => none
    | some (content, _) => some (String.mk (stripChars content))

/-- The candidate JSON text of `parse_json_from_text`: the fenced block
when present, otherwise the whole response. -/
def candidateOf (text : String) : String :=
  match fenceContent text with
  | some c => c
  | none => text

/-! ## The line-scanning repair pass -/

/-- Does the stripped line open a JSON value (`startswith` a curly or
square opening bracket)? -/
def lineOpens (l : String) : Bool :=
  startsWithChar (pyStrip l) lbrace || startsWithChar (pyStrip l) '['

/-- Does the stripped line end with a closing curly or square bracket? -/
def lineCloses (l : String) : Bool :=
  endsWithChar (pyStrip l) rbrace || endsWithChar (pyStrip l) ']'

/-- Does the raw line contain a comma, double quote, colon or single
quote (the `any(c in line ...)` guard of the break condition)? -/
def lineHasSpecial (l : String) : Bool :=
  l.data.any (fun c => c = ',' || c = qc || c = ':' || c = sq)

/-- The cleaning loop of `parse_json_from_text`: skip lines until one
opens a JSON value, then keep lines, stopping right after a line that
closes a bracket and has none of the special characters. -/
def repairScan : List String → Bool → List String
  | [], _ => []
  | l :: rest, started0 =>
    let started := started0 || lineOpens l
    if started then
      if lineCloses l && !(lineHasSpecial l) then [l]
      else l :: repairScan rest started
    else repairScan rest started

/-- The repaired candidate: the kept lines joined back with newlines. -/
def repairCandidate (s : String) : String :=
  joinLines (repairScan (splitLines s) false)

/-- The two-stage parse applied to a candidate string: strict
`json.loads` first, the line-scanning repair pass second. -/
def jsonChain (s : String) : Option Json :=
  match jsonLoads s with
  | some j => some j
  | none => jsonLoads (repairCandidate s)

/-- `parse_json_from_text` (src/main.py:83-127).  `none` models the
re-raised `json.JSONDecodeError`. -/
def parse_json_from_text (text : String) : Option Json :=
  let json_str := candidateOf text
  match jsonLoads json_str with
  | some j => some j
  | none => jsonLoads (repairCandidate json_str)

/-! ## Storyboard extraction (src/main.py:163-170)

`storyboard["slides"]` is read, iterated with `enumerate`, and each
slide's `narration` and `visual_spec` are read while building the code
prompt.  A missing key or a non-object shape raises and crashes the
pipeline, which the model folds into `none`. -/

/-- Field lookup in a parsed JSON object.  When `json.loads` meets a
duplicate key the later value wins, hence the right-biased recursion. -/
def getField : List (String × Json) → String → Option Json
  | [], _ => none
  | (k1, v) :: rest, k =>
    match getField rest k with
    | some r => some r
    | none => if k1 = k then some v else none

/-- Rendering of a JSON value interpolated into a prompt f-string.
Slide text never influences the modelled control flow, so the rendering
of nested containers is abbreviated. -/
def jsonDisplay : Json → String
  | Json.str s => s
  | Json.num n => toString n
  | Json.bool b => if b then "True" else "False"
  | Json.null => "None"
  | Json.arr _ => "[...]"
  | Json.obj _ => "[...]"

/-- One storyboard slide: the two fields the prompt interpolates. -/
structure SlideSpec where
  narration : String
  visual_spec : String
  deriving DecidableEq

/-- A slide element must expose `narration` and `visual_spec`. -/
def slideOfJson : Json → Option SlideSpec
  | Json.obj fs =>
    match getField fs "narration", getField fs "visual_spec" with
    | some n, some v => some { narration := jsonDisplay n, visual_spec := jsonDisplay v }
    | _, _ => none
  | _ => none

/-- The slide list of a parsed storyboard (`storyboard["slides"]`). -/
def getSlides : Json → Option (List SlideSpec)
  | Json.obj fs =>
    match getField fs "slides" with
    | some (Json.arr xs) => xs.mapM slideOfJson
    | _ => none
  | _ => none

/-- The slide list reachable from a raw planner response: lenient JSON
extraction followed by the storyboard field accesses. -/
def storyboardSlides (text : String) : Option (List SlideSpec) :=
  (parse_json_from_text text).bind getSlides

/-! ## The generation-render-repair loop (src/main.py:243-292)

`flash` (the content-generation service) and `manim` (the render
engine) are oracles.  Render outcomes are a function from attempt index
to success; the loop itself only counts generation calls and stops on
the first success.  The accumulator starts at 1: the initial
`flash(code_prompt)` call made before the attempt loop. -/

/-- The `for attempt in range(3)` loop.  The second component counts
generation-service calls: on every failed attempt - the third
included - a repair `flash(fix_prompt)` call is issued before the loop
continues or exits. -/
def slideLoop (render1 : Nat → Bool) : Nat → Nat → Nat → Bool × Nat
  | 0, _, calls => (false, calls)
  | fuel + 1, attempt, calls =>
    if render1 attempt then (true, calls)
    else slideLoop render1 fuel (attempt + 1) (calls + 1)

/-- Process one slide: initial generation call, then up to 3 render
attempts.  Returns (rendered successfully?, total generation calls). -/
def processSlide (render1 : Nat → Bool) : Bool × Nat :=
  slideLoop render1 3 0 1

/-- Iterate the slides in storyboard order; abort with the index of the
first slide whose three attempts all fail (the `raise RuntimeError`). -/
def renderAllIdx (render : Nat → Nat → Bool) : List SlideSpec → Nat → Except Nat Unit
  | [], _ => Except.ok ()
  | _ :: rest, i =>
    if (processSlide (render i)).1 then renderAllIdx render rest (i + 1)
    else Except.error i

/-! ## The main pipeline (src/main.py:129-353) -/

/-- External-process outcomes for one pipeline run: per-slide,
per-attempt render success, and the results of the assembly tools. -/
structure PipelineEnv where
  render : Nat → Nat → Bool
  concatOk : Bool
  copyOk : Bool

/-- Observable outcome of one `main.py` run. -/
structure MainResult where
  exitOk : Bool
  raisedMsg : Option String
  slidesProcessed : Nat
  artifactProduced : Bool
  assemblyAttempted : Bool
  deriving DecidableEq

/-- A run killed by an uncaught exception: nonzero exit status. -/
def pipeCrash (msg : String) : MainResult :=
  { exitOk := false, raisedMsg := some msg, slidesProcessed := 0,
    artifactProduced := false, assemblyAttempted := false }

/-- Steps 3-5 of `main` once a slide list has been extracted: the render
loop, then the assembly branch.  A nonzero assembly-tool status is only
printed; the run still finishes with exit status 0. -/
def afterSlides (env : PipelineEnv) (slides : List SlideSpec) : MainResult :=
  match renderAllIdx env.render slides 0 with
  | Except.error i =>
    { exitOk := false, raisedMsg := some ("Slide " ++ toString i ++ " failed 3×"),
      slidesProcessed := i, artifactProduced := false, assemblyAttempted := false }
  | Except.ok _ =>
    if slides.length > 1 then
      { exitOk := true, raisedMsg := none, slidesProcessed := slides.length,
        artifactProduced := env.concatOk, assemblyAttempted := true }
    else if slides.length = 1 then
      { exitOk := true, raisedMsg := none, slidesProcessed := slides.length,
        artifactProduced := env.copyOk, assemblyAttempted := true }
    else
      { exitOk := true, raisedMsg := none, slidesProcessed := 0,
        artifactProduced := false, assemblyAttempted := false }

/-- `main` (src/main.py:129): storyboard parsing, slide extraction,
render loop, assembly, cleanup.  `storyboardText` is the planner
response returned by the generation service. -/
def main (env : PipelineEnv) (storyboardText : String) : MainResult :=
  match parse_json_from_text storyboardText with
  | none => pipeCrash "json.JSONDecodeError"
  | some sb =>
    match getSlides sb with
    | none => pipeCrash "KeyError"
    | some slides => afterSlides env slides

/-! ## Job store and job records (src/server.py)

The store is the persisted mapping of `video_requests.json`, modelled
as an association list with Python-dict update semantics.  Timestamps
are opaque naturals (wall-clock values carry no logical content). -/

/-- Job status values written by the server. -/
inductive Status where
  | queued
  | processing
  | completed
  | failed
  deriving DecidableEq

/-- One job record, with the fields `server.py` ever writes.  `none`
models an absent dictionary key. -/
structure Job where
  status : Status
  input_text : String
  created_at : Nat
  start_time : Option Nat
  end_time : Option Nat
  output_path : Option String
  error : Option String
  logs : Option String
  deriving DecidableEq

/-- The record created at submission (src/server.py:156-160). -/
def newJob (text : String) (t0 : Nat) : Job :=
  { status := Status.queued, input_text := text, created_at := t0,
    start_time := none, end_time := none,
    output_path := none, error := none, logs := none }

/-- The in-memory mapping held in `video_requests.json`. -/
abbrev Store := List (String × Job)

/-- Python dict read `requests_data[rid]` as a total lookup. -/
def lookupJob : Store → String → Option Job
  | [], _ => none
  | (k, j) :: rest, rid => if k = rid then some j else lookupJob rest rid

/-- Python dict write `requests_data[rid] = job`: replace when the key
exists, append otherwise. -/
def setJob : Store → String → Job → Store
  | [], rid, j => [(rid, j)]
  | (k, j1) :: rest, rid, j =>
    if k = rid then (rid, j) :: rest else (k, j1) :: setJob rest rid j

/-- In-place mutation of one record's fields
(`requests_data[rid]['status'] = ...`): a `KeyError` when the record is
missing, modelled as `none`. -/
def updateJob (st : Store) (rid : String) (f : Job → Job) : Option Store :=
  match lookupJob st rid with
  | none => none
  | some j => some (setJob st rid (f j))

/-- The status of a job as a poller observes it. -/
def statusOf (st : Store) (rid : String) : Option Status :=
  (lookupJob st rid).map (fun j => j.status)

/-! ## The background task `generate_video` (src/server.py:51-136)

The subprocess running `main.py` is summarised by its outcome: exit
status plus captured stdout/stderr, or an unexpected exception with its
message.  In the serial per-job semantics the load-modify-save cycles
act on the threaded store. -/

/-- Outcome of the background subprocess phase. -/
inductive ProcOutcome where
  | run (rc : Nat) (out : String) (err : String)
  | exn (msg : String)
  deriving DecidableEq

/-- The `processing` write done first inside the try block. -/
def markProcessing (t1 : Nat) (j : Job) : Job :=
  { j with status := Status.processing, start_time := some t1 }

/-- The terminal record written for the given outcome: `completed` with
`output_path` and `logs` on exit 0; `failed` with `error` = stderr and
`logs` = stdout on a nonzero exit; `failed` with `error` = the
exception message (and no `logs` write) on an unexpected exception. -/
def finalize (outcome : ProcOutcome) (t2 : Nat) (j : Job) : Job :=
  match outcome with
  | ProcOutcome.run rc out err =>
    if rc = 0 then
      { j with status := Status.completed, output_path := some "final_lesson.mp4",
               end_time := some t2, logs := some out }
    else
      { j with status := Status.failed, error := some err,
               end_time := some t2, logs := some out }
  | ProcOutcome.exn msg =>
      { j with status := Status.failed, error := some msg, end_time := some t2 }

/-- The terminal status reached for the given outcome. -/
def terminalOf (outcome : ProcOutcome) : Status :=
  match outcome with
  | ProcOutcome.run rc _ _ => if rc = 0 then Status.completed else Status.failed
  | ProcOutcome.exn _ => Status.failed

/-- `generate_video` as the ordered list of stores persisted by its
save calls: the `processing` write, then exactly one terminal write.
`none` models the crash path where the record is missing and the
`KeyError` re-raised inside the except block kills the thread with no
write at all. -/
def generate_video (rid : String) (outcome : ProcOutcome) (t1 t2 : Nat)
    (st : Store) : Option (List Store) :=
  match updateJob st rid (markProcessing t1) with
  | none => none
  | some st1 =>
    match updateJob st1 rid (finalize outcome t2) with
    | none => none
    | some st2 => some [st1, st2]

/-- The last element of a list of persisted stores. -/
def lastStore : List Store → Option Store
  | [] => none
  | [st] => some st
  | _ :: rest => lastStore rest

/-- The job record in the last persisted store of a background run. -/
def finalJob (r : Option (List Store)) (rid : String) : Option Job :=
  match r with
  | none => none
  | some saves =>
    match lastStore saves with
    | none => none
    | some st => lookupJob st rid

/-- The status a poller sees after the background run finished. -/
def finalStatus (r : Option (List Store)) (rid : String) : Option Status :=
  (finalJob r rid).map (fun j => j.status)

/-! ## The persisted file and `load_requests` (src/server.py:21-32) -/

/-- State of `video_requests.json` on disk.  `corrupt` is an existing
file whose contents `json.load` rejects; `unreadable` is an existing
file whose `open`/read raises an `OSError`. -/
inductive StoreFile where
  | missing
  | unreadable
  | corrupt
  | good (m : Store)
  deriving DecidableEq

/-- `load_requests`: a missing file and a `json.JSONDecodeError` both
yield the empty mapping; an OS-level read error is not caught and
propagates (`Except.error`). -/
def load_requests : StoreFile → Except Unit Store
  | StoreFile.missing => Except.ok []
  | StoreFile.unreadable => Except.error ()
  | StoreFile.corrupt => Except.ok []
  | StoreFile.good m => Except.ok m

/-- `save_requests`: full-file rewrite of the mapping. -/
def save_requests (m : Store) : StoreFile := StoreFile.good m

/-- Round trip: persisting a mapping and loading it back is lossless. -/
theorem load_save_requests (m : Store) : load_requests (save_requests m) = Except.ok m := rfl

/-! ## HTTP endpoints (src/server.py:139-244) -/

/-- Python truthiness of a parsed JSON body (`if not data`). -/
def pyTruthy : Json → Bool
  | Json.null => false
  | Json.bool b => b
  | Json.num n => n != 0
  | Json.str s => s != ""
  | Json.arr xs => !xs.isEmpty
  | Json.obj fs => !fs.isEmpty

/-- Sublist search over characters (Python `sub in str`). -/
def listHasSub : List Char → List Char → Bool
  | pat, [] => pat.isEmpty
  | pat, c :: rest => pat.isPrefixOf (c :: rest) || listHasSub pat rest

/-- The Python `in` operator applied to a JSON value (`'text' in
data`): key membership for objects, element membership for arrays,
substring for strings, `TypeError` (`none`) otherwise. -/
def pyContains (j : Json) (key : String) : Option Bool :=
  match j with
  | Json.obj fs => some (getField fs key).isSome
  | Json.arr xs => some (xs.any (fun x => match x with | Json.str s => s = key | _ => false))
  | Json.str s => some (listHasSub key.data s.data)
  | _ => none

/-- `data[key]`: object field access; `TypeError` (`none`) otherwise. -/
def getItem (j : Json) (key : String) : Option Json :=
  match j with
  | Json.obj fs => getField fs key
  | _ => none

/-- Responses of the submission endpoint. -/
inductive SubmitResult where
  | badRequest
  | serverError
  | accepted (rid : String)
  deriving DecidableEq

/-- `start_video_generation` (src/server.py:139-175): body validation,
then record creation with status `queued` and the fire-and-forget
background thread.  Returns (response, resulting file state, was a
background task started?).  `rid` is the fresh `uuid4` value and `t0`
the submission clock reading, both supplied by the environment. -/
def start_video_generation (file : StoreFile) (data : Option Json)
    (rid : String) (t0 : Nat) : SubmitResult × StoreFile × Bool :=
  match data with
  | none => (SubmitResult.badRequest, file, false)
  | some d =>
    if !(pyTruthy d) then (SubmitResult.badRequest, file, false)
    else
      match pyContains d "text" with
      | none => (SubmitResult.serverError, file, false)
      | some false => (SubmitResult.badRequest, file, false)
      | some true =>
        match getItem d "text" with
        | none => (SubmitResult.serverError, file, false)
        | some v =>
          match load_requests file with
          | Except.error _ => (SubmitResult.serverError, file, false)
          | Except.ok m =>
            (SubmitResult.accepted rid,
             save_requests (setJob m rid (newJob (jsonDisplay v) t0)), true)

/-- Responses of the status endpoint. -/
inductive StatusResp where
  | notFound
  | info (status : Status) (err : Option String) (startT : Option Nat) (endT : Option Nat)
  deriving DecidableEq

/-- `check_video_status` (src/server.py:178-203): read-only; the store
is returned unchanged because the handler never saves. -/
def check_video_status (st : Store) (rid : String) : StatusResp × Store :=
  (match lookupJob st rid with
   | none => StatusResp.notFound
   | some j =>
     StatusResp.info j.status
       (if j.status = Status.failed then j.error else none)
       (if j.status = Status.processing then j.start_time else none)
       (if j.status = Status.completed || j.status = Status.failed then j.end_time else none),
   st)

/-- Responses of the download endpoint. -/
inductive DownloadResp where
  | notFound
  | notReady (status : Status)
  | fileOut (path : String)
  deriving DecidableEq

/-- `download_video` (src/server.py:206-232): read-only; rejects any
non-`completed` status and tolerates a missing file on disk. -/
def download_video (st : Store) (rid : String) (fileExists : String → Bool) :
    DownloadResp × Store :=
  (match lookupJob st rid with
   | none => DownloadResp.notFound
   | some j =>
     if j.status ≠ Status.completed then DownloadResp.notReady j.status
     else
       match j.output_path with
       | none => DownloadResp.notFound
       | some p => if fileExists p then DownloadResp.fileOut p else DownloadResp.notFound,
   st)

/-- One whole job, serially: the submission write followed by the
background task, with the subprocess outcome determined by `main` run
on the planner response `sbText`.  Captured stderr is summarised by the
raised message. -/
def runJob (env : PipelineEnv) (userText sbText rid : String)
    (t0 t1 t2 : Nat) (st0 : Store) : Option (List Store) :=
  let m := main env sbText
  generate_video rid
    (ProcOutcome.run (if m.exitOk then 0 else 1) "" ((m.raisedMsg).getD ""))
    t1 t2 (setJob st0 rid (newJob userText t0))

/-! ## Store lemmas -/

theorem lookup_set_self (st : Store) (rid : String) (j : Job) :
    lookupJob (setJob st rid j) rid = some j := by
  induction st with
  | nil => simp [setJob, lookupJob]
  | cons hd tl ih =>
    obtain ⟨k, j1⟩ := hd
    by_cases h : k = rid
    · simp [setJob, lookupJob, h]
    · simp [setJob, lookupJob, h, ih]

theorem lookup_set_other (st : Store) (rid rid2 : String) (j : Job) (h : rid2 ≠ rid) :
    lookupJob (setJob st rid j) rid2 = lookupJob st rid2 := by
  have hne : rid ≠ rid2 := fun hh => h hh.symm
  induction st with
  | nil => simp [setJob, lookupJob, hne]
  | cons hd tl ih =>
    obtain ⟨k, j1⟩ := hd
    by_cases hk : k = rid
    · subst hk
      simp [setJob, lookupJob, hne]
    · simp [setJob, lookupJob, hk, ih]

theorem updateJob_set (st : Store) (rid : String) (j : Job) (f : Job → Job) :
    updateJob (setJob st rid j) rid f = some (setJob (setJob st rid j) rid (f j)) := by
  simp [updateJob, lookup_set_self]

/-- Computed form of the background task when the record exists. -/
theorem generate_video_eq (rid : String) (outcome : ProcOutcome) (t1 t2 : Nat)
    (st : Store) (j0 : Job) (h : lookupJob st rid = some j0) :
    generate_video rid outcome t1 t2 st =
      some [setJob st rid (markProcessing t1 j0),
            setJob (setJob st rid (markProcessing t1 j0)) rid
              (finalize outcome t2 (markProcessing t1 j0))] := by
  simp only [generate_video, updateJob, h, lookup_set_self]

/-- The status field written by the terminal save. -/
theorem finalize_status (outcome : ProcOutcome) (t2 : Nat) (j : Job) :
    (finalize outcome t2 j).status = terminalOf outcome := by
  cases outcome with
  | run rc out err =>
    by_cases h : rc = 0 <;> simp [finalize, terminalOf, h]
  | exn msg => simp [finalize, terminalOf]

/-! ## Slide-loop lemmas -/

/-- Closed form of the three-attempt loop. -/
theorem processSlide_eq (r : Nat → Bool) :
    processSlide r =
      if r 0 then (true, 1)
      else if r 1 then (true, 2)
      else if r 2 then (true, 3)
      else (false, 4) := by
  cases h0 : r 0 <;> cases h1 : r 1 <;> cases h2 : r 2 <;>
    simp [processSlide, slideLoop, h0, h1, h2]

theorem processSlide_success_of (r : Nat → Bool) (k : Nat) (hk : k < 3)
    (h : r k = true) : (processSlide r).1 = true := by
  rw [processSlide_eq]
  have hor : k = 0 ∨ k = 1 ∨ k = 2 := by omega
  rcases hor with rfl | rfl | rfl
  · simp [h]
  · cases h0 : r 0 <;> simp [h0, h]
  · cases h0 : r 0 <;> cases h1 : r 1 <;> simp [h0, h1, h]

theorem processSlide_fail (r : Nat → Bool) (h : ∀ k, k < 3 → r k = false) :
    processSlide r = (false, 4) := by
  rw [processSlide_eq]
  simp [h 0 (by omega), h 1 (by omega), h 2 (by omega)]

/-- All slides succeeding lets the whole loop run to completion. -/
theorem renderAllIdx_ok (render : Nat → Nat → Bool) (slides : List SlideSpec) :
    ∀ start : Nat,
      (∀ i, i < slides.length → (processSlide (render (start + i))).1 = true) →
      renderAllIdx render slides start = Except.ok () := by
  induction slides with
  | nil => intro start _; rfl
  | cons s rest ih =>
    intro start h
    have h0 : (processSlide (render start)).1 = true := by
      have := h 0 (by simp)
      simpa using this
    have hrest : ∀ i, i < rest.length → (processSlide (render (start + 1 + i))).1 = true := by
      intro i hi
      have := h (i + 1) (by simp; omega)
      rw [(by omega : start + 1 + i = start + (i + 1))]
      exact this
    simp [renderAllIdx, h0, ih (start + 1) hrest]

/-- The loop aborts exactly at the first slide whose attempts are
exhausted. -/
theorem renderAllIdx_error (render : Nat → Nat → Bool) (slides : List SlideSpec) :
    ∀ start j : Nat, j < slides.length →
      (∀ i, i < j → (processSlide (render (start + i))).1 = true) →
      (processSlide (render (start + j))).1 = false →
      renderAllIdx render slides start = Except.error (start + j) := by
  induction slides with
  | nil => intro start j hj; exact absurd hj (by simp)
  | cons s rest ih =>
    intro start j hj hpre hfail
    cases j with
    | zero =>
      have : (processSlide (render start)).1 = false := by simpa using hfail
      simp [renderAllIdx, this]
    | succ j1 =>
      have h0 : (processSlide (render start)).1 = true := by
        have := hpre 0 (by omega)
        simpa using this
      have hpre1 : ∀ i, i < j1 → (processSlide (render (start + 1 + i))).1 = true := by
        intro i hi
        have := hpre (i + 1) (by omega)
        rw [(by omega : start + 1 + i = start + (i + 1))]
        exact this
      have hfail1 : (processSlide (render (start + 1 + j1))).1 = false := by
        rw [(by omega : start + 1 + j1 = start + (j1 + 1))]
        exact hfail
      have := ih (start + 1) j1 (by simpa using hj) hpre1 hfail1
      simp [renderAllIdx, h0, this, (by omega : start + 1 + j1 = start + (j1 + 1))]

/-- Unfolding `main` once a slide list is known to be extracted. -/
theorem main_of_slides (env : PipelineEnv) (s : String) (slides : List SlideSpec)
    (h : storyboardSlides s = some slides) :
    main env s = afterSlides env slides := by
  unfold storyboardSlides at h
  rw [Option.bind_eq_some] at h
  obtain ⟨sb, hp, hg⟩ := h
  simp [main, hp, hg]

/-- The line-scanning repair pass discards exactly the leading lines
that do not open a JSON value. -/
theorem repairScan_dropWhile (ls : List String) :
    repairScan ls false = repairScan (ls.dropWhile (fun l => !(lineOpens l))) true := by
  induction ls with
  | nil => rfl
  | cons l rest ih =>
    cases h : lineOpens l with
    | true => simp [repairScan, h, List.dropWhile]
    | false => simp [repairScan, h, List.dropWhile, ih]

/-! ## Claims -/

/-- Claim C3, counterexample.  The claim states that a repair request is
issued only when attempts remain, so a slide failing all 3 attempts
would issue exactly 2 repair calls - 3 generation-service calls in
total.  On the code, the repair call follows every failed attempt, the
third included: a slide whose renders always fail makes 4 generation
calls (1 initial + 3 repairs), and the count 3 implied by the claim is
wrong. -/
theorem C3_cex :
    processSlide (fun _ => false) = (false, 4) ∧
    (processSlide (fun _ => false)).2 ≠ 3 ∧
    (processSlide (fun _ => false)).2 - 1 ≠ 2 := by
  refine ⟨rfl, by decide, by decide⟩

/-- Claim C3, amended.  Exactly one initial generation call is made per
slide, and a repair request follows every failed render attempt - the
final one included.  The call count is 1 on first-attempt success
(zero repair calls) and 1 + k when the first success is at attempt k,
reaching 4 (three repair calls) when all 3 attempts fail. -/
theorem C3_thm (r : Nat → Bool) :
    ((processSlide r).1 = true ↔ (r 0 = true ∨ r 1 = true ∨ r 2 = true)) ∧
    (processSlide r).2 =
      (if r 0 then 1 else if r 1 then 2 else if r 2 then 3 else 4) := by
  rw [processSlide_eq]
  cases h0 : r 0 <;> cases h1 : r 1 <;> cases h2 : r 2 <;> simp [h0, h1, h2]

/-- Claim C7, confirmed.  `parse_json_from_text` parses the fenced
block when one exists and otherwise the whole text (`candidateOf`),
first strictly, then - exactly when strict parsing fails - through the
line-scanning repair pass that discards the leading lines not opening a
JSON value; the result is a parse error precisely when both stages
fail. -/
theorem C7_thm (text : String) :
    parse_json_from_text text = jsonChain (candidateOf text) ∧
    (jsonChain (candidateOf text) = none ↔
      (jsonLoads (candidateOf text) = none ∧
       jsonLoads (repairCandidate (candidateOf text)) = none)) ∧
    repairScan (splitLines (candidateOf text)) false =
      repairScan ((splitLines (candidateOf text)).dropWhile (fun l => !(lineOpens l))) true := by
  refine ⟨rfl, ?_, repairScan_dropWhile _⟩
  unfold jsonChain
  cases h : jsonLoads (candidateOf text) <;> simp [h]

/-- Planner response used for claim C2: a well-formed two-slide
storyboard. -/
def C2_sb : String :=
  "\x7b\"slides\": [\x7b\"narration\": \"n1\", \"visual_spec\": \"v1\"\x7d, \x7b\"narration\": \"n2\", \"visual_spec\": \"v2\"\x7d]\x7d"

/-- Render outcomes used for claim C2: slide 0 always renders, every
other slide always fails. -/
def C2_env : PipelineEnv :=
  { render := fun i _ => i == 0, concatOk := true, copyOk := true }

/-- Claim C2, confirmed.  When the slides before index j all render and
slide j fails all 3 attempts, the pipeline aborts at slide j with a
nonzero exit status, no final artifact is produced (the assembly stage
is never reached, so earlier successful slides yield nothing), and the
job record reaches status `failed`. -/
theorem C2_thm (env : PipelineEnv) (userText sbText rid : String)
    (t0 t1 t2 : Nat) (st0 : Store) (slides : List SlideSpec) (j : Nat)
    (hs : storyboardSlides sbText = some slides)
    (hj : j < slides.length)
    (hpre : ∀ i, i < j → (processSlide (env.render i)).1 = true)
    (hfail : ∀ k, k < 3 → env.render j k = false) :
    (main env sbText).exitOk = false ∧
    (main env sbText).artifactProduced = false ∧
    (main env sbText).assemblyAttempted = false ∧
    (main env sbText).raisedMsg = some ("Slide " ++ toString j ++ " failed 3×") ∧
    finalStatus (runJob env userText sbText rid t0 t1 t2 st0) rid = some Status.failed := by
  have hfailP : (processSlide (env.render j)).1 = false := by
    rw [processSlide_fail (env.render j) hfail]
  have herr : renderAllIdx env.render slides 0 = Except.error j := by
    have := renderAllIdx_error env.render slides 0 j hj
      (fun i hi => by simpa using hpre i hi) (by simpa using hfailP)
    simpa using this
  have hm : main env sbText = afterSlides env slides := main_of_slides env sbText slides hs
  have hA : afterSlides env slides =
      { exitOk := false, raisedMsg := some ("Slide " ++ toString j ++ " failed 3×"),
        slidesProcessed := j, artifactProduced := false, assemblyAttempted := false } := by
    simp [afterSlides, herr]
  rw [hm, hA]
  refine ⟨rfl, rfl, rfl, rfl, ?_⟩
  simp only [runJob, hm, hA]
  rw [generate_video_eq rid _ t1 t2 _ _ (lookup_set_self st0 rid (newJob userText t0))]
  simp [finalStatus, finalJob, lastStore, lookup_set_self, finalize_status, terminalOf]

/-- Claim C2, witness at the two-slide storyboard whose second slide
always fails to render. -/
theorem C2_witness :
    (main C2_env C2_sb).exitOk = false ∧
    (main C2_env C2_sb).artifactProduced = false ∧
    (main C2_env C2_sb).assemblyAttempted = false ∧
    (main C2_env C2_sb).raisedMsg = some ("Slide " ++ toString 1 ++ " failed 3×") ∧
    finalStatus (runJob C2_env "user text" C2_sb "job-2" 0 1 2 []) "job-2" = some Status.failed :=
  C2_thm C2_env "user text" C2_sb "job-2" 0 1 2 []
    [{ narration := "n1", visual_spec := "v1" }, { narration := "n2", visual_spec := "v2" }] 1
    (by rfl) (by decide) (by decide) (by decide)

/-- Planner response used for claim C1: a two-slide storyboard. -/
def C1_sb : String :=
  "\x7b\"slides\": [\x7b\"narration\": \"a\", \"visual_spec\": \"b\"\x7d, \x7b\"narration\": \"c\", \"visual_spec\": \"d\"\x7d]\x7d"

/-- Environment used for claim C1: every render succeeds, the
concatenation tool reports a nonzero completion status. -/
def C1_env : PipelineEnv :=
  { render := fun _ _ => true, concatOk := false, copyOk := true }

/-- Claim C1, counterexample.  Two slides render successfully and the
concatenation tool reports a nonzero completion status.  The claim says
the job record must reach status `failed`; on the code the error is
only printed, the pipeline exits with status 0, and the job record
reaches `completed`. -/
theorem C1_cex :
    (main C1_env C1_sb).assemblyAttempted = true ∧
    (main C1_env C1_sb).artifactProduced = false ∧
    (main C1_env C1_sb).exitOk = true ∧
    finalStatus (runJob C1_env "user text" C1_sb "job-1" 0 1 2 []) "job-1" = some Status.completed ∧
    finalStatus (runJob C1_env "user text" C1_sb "job-1" 0 1 2 []) "job-1" ≠ some Status.failed :=
  ⟨rfl, rfl, rfl, rfl, by decide⟩

/-- Claim C1, amended.  A nonzero completion status from the assembly
tool (concatenation for several slides, copy for one) is not fatal:
when every slide renders, the pipeline exits with status 0 and the job
record reaches `completed` regardless of the assembly outcome - only
the final artifact is missing when the applicable tool failed. -/
theorem C1_thm (env : PipelineEnv) (userText sbText rid : String)
    (t0 t1 t2 : Nat) (st0 : Store) (slides : List SlideSpec)
    (hs : storyboardSlides sbText = some slides)
    (hok : ∀ i, i < slides.length → (processSlide (env.render i)).1 = true) :
    (main env sbText).exitOk = true ∧
    finalStatus (runJob env userText sbText rid t0 t1 t2 st0) rid = some Status.completed ∧
    (slides.length > 1 → (main env sbText).artifactProduced = env.concatOk) ∧
    (slides.length = 1 → (main env sbText).artifactProduced = env.copyOk) := by
  have hr : renderAllIdx env.render slides 0 = Except.ok () :=
    renderAllIdx_ok env.render slides 0 (fun i hi => by simpa using hok i hi)
  have hm : main env sbText = afterSlides env slides := main_of_slides env sbText slides hs
  have hexit : (main env sbText).exitOk = true := by
    rw [hm]; unfold afterSlides; rw [hr]; split_ifs <;> rfl
  refine ⟨hexit, ?_, ?_, ?_⟩
  · simp only [runJob, hexit]
    rw [generate_video_eq rid _ t1 t2 _ _ (lookup_set_self st0 rid (newJob userText t0))]
    simp [finalStatus, finalJob, lastStore, lookup_set_self, finalize_status, terminalOf]
  · intro h1
    rw [hm]; unfold afterSlides; rw [hr]
    simp [h1]
  · intro h1
    rw [hm]; unfold afterSlides; rw [hr]
    simp [h1]

/-- Claim C1, witness: the amended statement at the concrete two-slide
environment whose concatenation tool fails. -/
theorem C1_witness :
    (main C1_env C1_sb).exitOk = true ∧
    finalStatus (runJob C1_env "user text" C1_sb "job-1" 0 1 2 []) "job-1" = some Status.completed ∧
    (([{ narration := "a", visual_spec := "b" }, { narration := "c", visual_spec := "d" }] : List SlideSpec).length > 1 →
      (main C1_env C1_sb).artifactProduced = C1_env.concatOk) ∧
    (([{ narration := "a", visual_spec := "b" }, { narration := "c", visual_spec := "d" }] : List SlideSpec).length = 1 →
      (main C1_env C1_sb).artifactProduced = C1_env.copyOk) :=
  C1_thm C1_env "user text" C1_sb "job-1" 0 1 2 []
    [{ narration := "a", visual_spec := "b" }, { narration := "c", visual_spec := "d" }]
    (by rfl) (by decide)

/-- Planner response used for claim C6: six slides, one above the
documented bound. -/
def C6_sb6 : String :=
  "\x7b\"slides\": [\x7b\"narration\": \"s1\", \"visual_spec\": \"v\"\x7d, \x7b\"narration\": \"s2\", \"visual_spec\": \"v\"\x7d, \x7b\"narration\": \"s3\", \"visual_spec\": \"v\"\x7d, \x7b\"narration\": \"s4\", \"visual_spec\": \"v\"\x7d, \x7b\"narration\": \"s5\", \"visual_spec\": \"v\"\x7d, \x7b\"narration\": \"s6\", \"visual_spec\": \"v\"\x7d]\x7d"

/-- Planner response used for claim C6: an empty slide list. -/
def C6_sb0 : String := "\x7b\"slides\": []\x7d"

/-- Environment used for claim C6: every external step succeeds. -/
def C6_env : PipelineEnv :=
  { render := fun _ _ => true, concatOk := true, copyOk := true }

set_option maxRecDepth 100000 in
/-- Claim C6, counterexample.  The claim says a storyboard with zero
slides or more than 5 slides is not accepted for rendering.  On the
code there is no count check: a six-slide storyboard is rendered in
full and completes, and a zero-slide storyboard completes with no
renders and no artifact. -/
theorem C6_cex :
    (main C6_env C6_sb6).slidesProcessed = 6 ∧
    (main C6_env C6_sb6).exitOk = true ∧
    finalStatus (runJob C6_env "u" C6_sb6 "job-6" 0 1 2 []) "job-6" = some Status.completed ∧
    (main C6_env C6_sb0).exitOk = true ∧
    (main C6_env C6_sb0).slidesProcessed = 0 ∧
    (main C6_env C6_sb0).artifactProduced = false :=
  ⟨rfl, rfl, rfl, rfl, rfl, rfl⟩

/-- Claim C6, amended.  The pipeline performs no slide-count
validation: any storyboard whose extracted structure has a `slides`
list proceeds to rendering regardless of its length - the render loop
runs over every slide, and when all render the run exits with status 0.
The bound of 5 exists only as a request inside the planner prompt. -/
theorem C6_thm (env : PipelineEnv) (sbText : String) (slides : List SlideSpec)
    (hs : storyboardSlides sbText = some slides)
    (hok : ∀ i, i < slides.length → (processSlide (env.render i)).1 = true) :
    renderAllIdx env.render slides 0 = Except.ok () ∧
    (main env sbText).slidesProcessed = slides.length ∧
    (main env sbText).exitOk = true := by
  have hr : renderAllIdx env.render slides 0 = Except.ok () :=
    renderAllIdx_ok env.render slides 0 (fun i hi => by simpa using hok i hi)
  have hm : main env sbText = afterSlides env slides := main_of_slides env sbText slides hs
  refine ⟨hr, ?_, ?_⟩
  · rw [hm]; unfold afterSlides; rw [hr]
    split_ifs with h1 h2
    · rfl
    · rfl
    · simp; omega
  · rw [hm]; unfold afterSlides; rw [hr]; split_ifs <;> rfl

set_option maxRecDepth 100000 in
/-- Claim C6, witness: the amended statement at the six-slide
storyboard. -/
theorem C6_witness :
    renderAllIdx C6_env.render
      [{ narration := "s1", visual_spec := "v" }, { narration := "s2", visual_spec := "v" },
       { narration := "s3", visual_spec := "v" }, { narration := "s4", visual_spec := "v" },
       { narration := "s5", visual_spec := "v" }, { narration := "s6", visual_spec := "v" }] 0 = Except.ok () ∧
    (main C6_env C6_sb6).slidesProcessed =
      ([{ narration := "s1", visual_spec := "v" }, { narration := "s2", visual_spec := "v" },
        { narration := "s3", visual_spec := "v" }, { narration := "s4", visual_spec := "v" },
        { narration := "s5", visual_spec := "v" }, { narration := "s6", visual_spec := "v" }] : List SlideSpec).length ∧
    (main C6_env C6_sb6).exitOk = true :=
  C6_thm C6_env C6_sb6
    [{ narration := "s1", visual_spec := "v" }, { narration := "s2", visual_spec := "v" },
     { narration := "s3", visual_spec := "v" }, { narration := "s4", visual_spec := "v" },
     { narration := "s5", visual_spec := "v" }, { narration := "s6", visual_spec := "v" }]
    (by rfl) (by decide)

/-- Claim C4, confirmed.  The status writes touching one job form
exactly the sequence `queued, processing, terminal`: the submission
write puts `queued`, the background task saves `processing` and then
exactly one terminal value, the polling and download handlers never
mutate the store, and a later submission under a different identifier
leaves the job's status untouched. -/
theorem C4_thm (userText rid : String) (t0 t1 t2 : Nat) (st0 : Store)
    (outcome : ProcOutcome) :
    statusOf (setJob st0 rid (newJob userText t0)) rid = some Status.queued ∧
    (∃ saves, generate_video rid outcome t1 t2 (setJob st0 rid (newJob userText t0)) = some saves ∧
       saves.map (fun st => statusOf st rid) =
         [some Status.processing, some (terminalOf outcome)]) ∧
    (terminalOf outcome = Status.completed ∨ terminalOf outcome = Status.failed) ∧
    (∀ (st : Store) (r2 : String), (check_video_status st r2).2 = st) ∧
    (∀ (st : Store) (r2 : String) (fe : String → Bool), (download_video st r2 fe).2 = st) ∧
    (∀ (st : Store) (rid2 : String) (j2 : Job), rid2 ≠ rid →
       statusOf (setJob st rid2 j2) rid = statusOf st rid) := by
  refine ⟨?_, ?_, ?_, ?_, ?_, ?_⟩
  · simp [statusOf, lookup_set_self, newJob]
  · refine ⟨_, generate_video_eq rid outcome t1 t2 _ (newJob userText t0)
        (lookup_set_self st0 rid (newJob userText t0)), ?_⟩
    simp [statusOf, lookup_set_self, markProcessing, finalize_status]
  · cases outcome with
    | run rc out err => by_cases h : rc = 0 <;> simp [terminalOf, h]
    | exn m => simp [terminalOf]
  · intro st r2; rfl
  · intro st r2 fe; rfl
  · intro st rid2 j2 hne
    simp [statusOf, lookup_set_other st rid2 rid j2 (fun hh => hne hh.symm)]

/-- Claim C4, witness: the trace at one concrete successful job. -/
theorem C4_witness :
    statusOf (setJob [] "job-a" (newJob "t" 0)) "job-a" = some Status.queued ∧
    (∃ saves, generate_video "job-a" (ProcOutcome.run 0 "out" "err") 1 2
        (setJob [] "job-a" (newJob "t" 0)) = some saves ∧
       saves.map (fun st => statusOf st "job-a") =
         [some Status.processing, some (terminalOf (ProcOutcome.run 0 "out" "err"))]) := by
  obtain ⟨h1, h2, _⟩ := C4_thm "t" "job-a" 0 1 2 [] (ProcOutcome.run 0 "out" "err")
  exact ⟨h1, h2⟩

/-- Claim C5, confirmed.  Once the background task has finished, the
job record holds a terminal status, and exactly one of `output_path`
(when `completed`) and `error` (when `failed`) is present. -/
theorem C5_thm (userText rid : String) (t0 t1 t2 : Nat) (st0 : Store)
    (outcome : ProcOutcome) (saves : List Store)
    (h : generate_video rid outcome t1 t2 (setJob st0 rid (newJob userText t0)) = some saves) :
    ∃ stF j, lastStore saves = some stF ∧ lookupJob stF rid = some j ∧
      (j.status = Status.completed ∨ j.status = Status.failed) ∧
      (j.output_path.isSome ↔ j.status = Status.completed) ∧
      (j.error.isSome ↔ j.status = Status.failed) := by
  rw [generate_video_eq rid outcome t1 t2 _ (newJob userText t0)
      (lookup_set_self st0 rid (newJob userText t0))] at h
  have hsv := Option.some.inj h
  subst hsv
  refine ⟨_, finalize outcome t2 (markProcessing t1 (newJob userText t0)),
    rfl, lookup_set_self _ _ _, ?_, ?_, ?_⟩ <;>
  · cases outcome with
    | run rc out err => by_cases hrc : rc = 0 <;> simp [finalize, hrc, markProcessing, newJob]
    | exn m => simp [finalize, markProcessing, newJob]

/-- Save list of the concrete successful job used to witness claim C5. -/
def C5_saves : List Store :=
  (generate_video "job-b" (ProcOutcome.run 0 "out" "err") 1 2
    (setJob [] "job-b" (newJob "t" 0))).getD []

/-- Claim C5, witness at one concrete completed job. -/
theorem C5_witness :
    ∃ stF j, lastStore C5_saves = some stF ∧ lookupJob stF "job-b" = some j ∧
      (j.status = Status.completed ∨ j.status = Status.failed) ∧
      (j.output_path.isSome ↔ j.status = Status.completed) ∧
      (j.error.isSome ↔ j.status = Status.failed) :=
  C5_thm "t" "job-b" 0 1 2 [] (ProcOutcome.run 0 "out" "err") C5_saves (by rfl)

/-- Background run of the concrete exception-failed job used against
claim C9. -/
def C9_run : Option (List Store) :=
  generate_video "job-c" (ProcOutcome.exn "boom") 1 2 (setJob [] "job-c" (newJob "t" 7))

/-- Claim C9, counterexample.  The claim says every failed job's record
has a readable `logs` field.  A job failed by an unexpected exception
in the background task (here message "boom") ends `failed` with the
message preserved in `error` but with no `logs` key at all: the
exception handler never writes it. -/
theorem C9_cex :
    finalJob C9_run "job-c" =
      some { status := Status.failed, input_text := "t", created_at := 7,
             start_time := some 1, end_time := some 2,
             output_path := none, error := some "boom", logs := none } := rfl

/-- Claim C9, amended.  A job failed by a nonzero pipeline exit keeps
the captured stderr verbatim in `error` and the captured stdout in
`logs`; a job failed by an unexpected exception keeps the exception
message verbatim in `error` but gets no `logs` field. -/
theorem C9_thm (userText rid : String) (t0 t1 t2 : Nat) (st0 : Store)
    (rc : Nat) (out err msg : String) (hrc : rc ≠ 0) :
    (∃ j, finalJob (generate_video rid (ProcOutcome.run rc out err) t1 t2
        (setJob st0 rid (newJob userText t0))) rid = some j ∧
       j.status = Status.failed ∧ j.error = some err ∧ j.logs = some out) ∧
    (∃ j, finalJob (generate_video rid (ProcOutcome.exn msg) t1 t2
        (setJob st0 rid (newJob userText t0))) rid = some j ∧
       j.status = Status.failed ∧ j.error = some msg ∧ j.logs = none) := by
  have key : ∀ outcome : ProcOutcome,
      finalJob (generate_video rid outcome t1 t2 (setJob st0 rid (newJob userText t0))) rid
        = some (finalize outcome t2 (markProcessing t1 (newJob userText t0))) := by
    intro outcome
    rw [generate_video_eq rid outcome t1 t2 _ (newJob userText t0)
        (lookup_set_self st0 rid (newJob userText t0))]
    simp [finalJob, lastStore, lookup_set_self]
  refine ⟨⟨_, key _, ?_, ?_, ?_⟩, ⟨_, key _, ?_, ?_, ?_⟩⟩ <;>
    simp [finalize, hrc, markProcessing, newJob]

/-- Claim C9, witness: the amended statement at one exit-code failure
and one exception failure. -/
theorem C9_witness :
    (∃ j, finalJob (generate_video "job-e" (ProcOutcome.run 1 "stdout text" "stderr text") 1 2
        (setJob [] "job-e" (newJob "t" 0))) "job-e" = some j ∧
       j.status = Status.failed ∧ j.error = some "stderr text" ∧ j.logs = some "stdout text") ∧
    (∃ j, finalJob (generate_video "job-e" (ProcOutcome.exn "oops") 1 2
        (setJob [] "job-e" (newJob "t" 0))) "job-e" = some j ∧
       j.status = Status.failed ∧ j.error = some "oops" ∧ j.logs = none) :=
  C9_thm "t" "job-e" 0 1 2 [] 1 "stdout text" "stderr text" "oops" (by decide)

/-- Claim C8, counterexample.  The claim says an unreadable persisted
store file also loads as an empty mapping.  Only `json.JSONDecodeError`
is caught: an OS-level read error propagates out of `load_requests`. -/
theorem C8_cex : load_requests StoreFile.unreadable = Except.error () := rfl

/-- Claim C8, amended.  A missing file or corrupt (unparseable)
contents load as the empty mapping, and a submission made over a
corrupt store succeeds, creating a fresh record while every prior
record is lost; but an OS-level read failure is not caught and
propagates. -/
theorem C8_thm (rid oldRid s : String) (t0 : Nat) (h : oldRid ≠ rid) :
    load_requests StoreFile.corrupt = Except.ok [] ∧
    load_requests StoreFile.missing = Except.ok [] ∧
    start_video_generation StoreFile.corrupt (some (Json.obj [("text", Json.str s)])) rid t0
      = (SubmitResult.accepted rid, StoreFile.good [(rid, newJob s t0)], true) ∧
    lookupJob [(rid, newJob s t0)] oldRid = none := by
  refine ⟨rfl, rfl, rfl, ?_⟩
  simp [lookupJob, Ne.symm h]

/-- Claim C8, witness: the amended statement at one concrete corrupt
store and submission. -/
theorem C8_witness :
    load_requests StoreFile.corrupt = Except.ok [] ∧
    load_requests StoreFile.missing = Except.ok [] ∧
    start_video_generation StoreFile.corrupt (some (Json.obj [("text", Json.str "hello")])) "new-id" 3
      = (SubmitResult.accepted "new-id", StoreFile.good [("new-id", newJob "hello" 3)], true) ∧
    lookupJob [("new-id", newJob "hello" 3)] "old-id" = none :=
  C8_thm "new-id" "old-id" "hello" 3 (by decide)

/-- Claim C10, confirmed.  A submission whose parsed body is absent or
is an object without the `text` key gets the 400 response, and the
persisted store file is unchanged: no record is created and no
background task is started. -/
theorem C10_thm (file : StoreFile) (rid : String) (t0 : Nat) (data : Option Json)
    (h : data = none ∨ ∃ fs, data = some (Json.obj fs) ∧ getField fs "text" = none) :
    start_video_generation file data rid t0 = (SubmitResult.badRequest, file, false) := by
  rcases h with rfl | ⟨fs, rfl, hf⟩
  · rfl
  · cases fs with
    | nil => rfl
    | cons f rest => simp [start_video_generation, pyTruthy, pyContains, hf]

/-- Claim C10, witness: a body carrying only an unrelated key. -/
theorem C10_witness :
    start_video_generation StoreFile.missing (some (Json.obj [("other", Json.str "x")])) "job-d" 0
      = (SubmitResult.badRequest, StoreFile.missing, false) :=
  C10_thm StoreFile.missing "job-d" 0 (some (Json.obj [("other", Json.str "x")]))
    (Or.inr ⟨[("other", Json.str "x")], rfl, rfl⟩)

end TTV
